import Mathlib

/-!
Verification of the HTTP-to-SSE relay of this repository: the SSE frame
decoder and relay loop of the route handler, and the transport wrapper,
retry coordinator, error classifier and fallback path of
`src/app/api/ai-content/openai.ts`.  Text is modelled as `List Char`
(JavaScript strings), fallible operations as `Option`/`Except`.
-/

mutual

/-- JSON values as produced by `JSON.parse`.  Arrays and object field lists
are mutual inductives (rather than `List Json`) so that all functions over
them are structurally recursive and reduce inside the kernel. -/
inductive Json where
  | jnull : Json
  | jbool (b : Bool) : Json
  | jnum (lit : List Char) : Json
  | jstr (s : List Char) : Json
  | jarr (elems : JsonList) : Json
  | jobj (fields : JsonFields) : Json

/-- A list of JSON array elements. -/
inductive JsonList where
  | nil : JsonList
  | cons (hd : Json) (tl : JsonList) : JsonList

/-- An ordered list of JSON object members. -/
inductive JsonFields where
  | nil : JsonFields
  | cons (key : List Char) (val : Json) (tl : JsonFields) : JsonFields

end

/-- The left-brace character, kept out of character literals. -/
def lbrace : Char := Char.ofNat 123

/-- The right-brace character, kept out of character literals. -/
def rbrace : Char := Char.ofNat 125

/-- JSON insignificant whitespace (RFC 8259): space, tab, newline, return. -/
def isJsonWs (c : Char) : Bool :=
  c = ' ' || c = '\t' || c = '\n' || c = '\r'

/-- Drop leading JSON whitespace. -/
def skipWs : List Char → List Char
  | [] => []
  | c :: rest => if isJsonWs c then skipWs rest else c :: rest

/-- Decimal digit test. -/
def isDigitCh (c : Char) : Bool := '0' ≤ c && c ≤ '9'

/-- Value of one hexadecimal digit. -/
def hexVal (c : Char) : Option Nat :=
  if '0' ≤ c && c ≤ '9' then some (c.toNat - 48)
  else if 'a' ≤ c && c ≤ 'f' then some (c.toNat - 87)
  else if 'A' ≤ c && c ≤ 'F' then some (c.toNat - 55)
  else none

/-- Body of a JSON string after the opening quote: returns the decoded
characters and the input remaining after the closing quote.  Escapes follow
`JSON.parse`; unescaped control characters are rejected. -/
def parseStringRest : List Char → Option (List Char × List Char)
  | [] => none
  | c :: rest =>
    if c = '"' then some ([], rest)
    else if c = '\\' then
      match rest with
      | [] => none
      | e :: r =>
        if e = '"' then (parseStringRest r).map (fun p => ('"' :: p.1, p.2))
        else if e = '\\' then (parseStringRest r).map (fun p => ('\\' :: p.1, p.2))
        else if e = '/' then (parseStringRest r).map (fun p => ('/' :: p.1, p.2))
        else if e = 'b' then (parseStringRest r).map (fun p => ('\x08' :: p.1, p.2))
        else if e = 'f' then (parseStringRest r).map (fun p => ('\x0c' :: p.1, p.2))
        else if e = 'n' then (parseStringRest r).map (fun p => ('\n' :: p.1, p.2))
        else if e = 'r' then (parseStringRest r).map (fun p => ('\r' :: p.1, p.2))
        else if e = 't' then (parseStringRest r).map (fun p => ('\t' :: p.1, p.2))
        else if e = 'u' then
          match r with
          | a :: b :: c2 :: d :: r2 =>
            match hexVal a, hexVal b, hexVal c2, hexVal d with
            | some ha, some hb, some hc, some hd =>
              (parseStringRest r2).map
                (fun p => (Char.ofNat (((ha * 16 + hb) * 16 + hc) * 16 + hd) :: p.1, p.2))
            | _, _, _, _ => none
          | _ => none
        else none
    else if c.toNat < 32 then none
    else (parseStringRest rest).map (fun p => (c :: p.1, p.2))

/-- Optional fraction part of a JSON number: `.digits` or nothing. -/
def parseFrac (l : List Char) : Option (List Char × List Char) :=
  match l with
  | '.' :: r =>
    let ds := r.takeWhile isDigitCh
    if ds.isEmpty then none else some ('.' :: ds, r.dropWhile isDigitCh)
  | _ => some ([], l)

/-- Optional exponent part of a JSON number: `[eE][+-]?digits` or nothing. -/
def parseExp (l : List Char) : Option (List Char × List Char) :=
  match l with
  | e :: r =>
    if e = 'e' || e = 'E' then
      let (sgn, r1) :=
        match r with
        | s :: r2 => if s = '+' || s = '-' then ([s], r2) else (([] : List Char), s :: r2)
        | [] => (([] : List Char), ([] : List Char))
      let ds := r1.takeWhile isDigitCh
      if ds.isEmpty then none
      else some (e :: sgn ++ ds, r1.dropWhile isDigitCh)
    else some ([], e :: r)
  | [] => some ([], [])

/-- Fraction and exponent tail of a JSON number; `intLit` is the already
consumed sign and integer part.  Returns the full literal and the rest. -/
def parseNumberTail (intLit : List Char) (l : List Char) : Option (List Char × List Char) :=
  match parseFrac l with
  | none => none
  | some (fracLit, l1) =>
    match parseExp l1 with
    | none => none
    | some (expLit, l2) => some (intLit ++ fracLit ++ expLit, l2)

/-- A JSON number literal: optional minus, integer part with no leading
zero, optional fraction, optional exponent.  Returns literal and rest. -/
def parseNumber (l : List Char) : Option (List Char × List Char) :=
  let (sgn, l1) := match l with | '-' :: r => (['-'], r) | _ => (([] : List Char), l)
  match l1 with
  | c :: r =>
    if c = '0' then parseNumberTail (sgn ++ ['0']) r
    else if isDigitCh c then
      parseNumberTail (sgn ++ c :: r.takeWhile isDigitCh) (r.dropWhile isDigitCh)
    else none
  | [] => none

/-- Check for an expected keyword tail (`rue`, `alse`, `ull`). -/
def expectLit (tail : List Char) (l : List Char) (j : Json) : Option (Json × List Char) :=
  if tail.isPrefixOf l then some (j, l.drop tail.length) else none

mutual

/-- Recursive-descent JSON value parser with explicit fuel (structural on
the fuel, so the kernel can evaluate it).  Mirrors `JSON.parse`. -/
def parseValue : Nat → List Char → Option (Json × List Char)
  | 0, _ => none
  | Nat.succ fuel, l =>
    match skipWs l with
    | [] => none
    | c :: r =>
      if c = '"' then (parseStringRest r).map (fun p => (Json.jstr p.1, p.2))
      else if c = lbrace then parseObjBody fuel r
      else if c = '[' then parseArrBody fuel r
      else if c = 't' then expectLit ['r', 'u', 'e'] r (Json.jbool true)
      else if c = 'f' then expectLit ['a', 'l', 's', 'e'] r (Json.jbool false)
      else if c = 'n' then expectLit ['u', 'l', 'l'] r Json.jnull
      else (parseNumber (c :: r)).map (fun p => (Json.jnum p.1, p.2))

/-- Object body after the opening brace: empty object or member list. -/
def parseObjBody : Nat → List Char → Option (Json × List Char)
  | 0, _ => none
  | Nat.succ fuel, l =>
    match skipWs l with
    | [] => none
    | c :: r =>
      if c = rbrace then some (Json.jobj JsonFields.nil, r)
      else parseMembers fuel (c :: r)

/-- One or more `"key": value` members separated by commas. -/
def parseMembers : Nat → List Char → Option (Json × List Char)
  | 0, _ => none
  | Nat.succ fuel, l =>
    match skipWs l with
    | [] => none
    | c :: r =>
      if c = '"' then
        match parseStringRest r with
        | none => none
        | some (key, r1) =>
          match skipWs r1 with
          | ':' :: r2 =>
            match parseValue fuel r2 with
            | none => none
            | some (v, r3) =>
              match skipWs r3 with
              | [] => none
              | c2 :: r4 =>
                if c2 = ',' then
                  match parseMembers fuel r4 with
                  | some (Json.jobj fields, r5) =>
                    some (Json.jobj (JsonFields.cons key v fields), r5)
                  | _ => none
                else if c2 = rbrace then
                  some (Json.jobj (JsonFields.cons key v JsonFields.nil), r4)
                else none
          | _ => none
      else none

/-- Array body after the opening bracket: empty array or element list. -/
def parseArrBody : Nat → List Char → Option (Json × List Char)
  | 0, _ => none
  | Nat.succ fuel, l =>
    match skipWs l with
    | [] => none
    | c :: r =>
      if c = ']' then some (Json.jarr JsonList.nil, r)
      else parseElems fuel (c :: r)

/-- One or more array elements separated by commas. -/
def parseElems : Nat → List Char → Option (Json × List Char)
  | 0, _ => none
  | Nat.succ fuel, l =>
    match parseValue fuel l with
    | none => none
    | some (v, r) =>
      match skipWs r with
      | [] => none
      | c :: r1 =>
        if c = ',' then
          match parseElems fuel r1 with
          | some (Json.jarr elems, r2) => some (Json.jarr (JsonList.cons v elems), r2)
          | _ => none
        else if c = ']' then some (Json.jarr (JsonList.cons v JsonList.nil), r1)
        else none

end

/-- `JSON.parse`: parse one value and require only whitespace after it;
`none` models a thrown `SyntaxError`.  The fuel bound `3 * length + 3`
dominates the recursion depth, which advances by at most three fuel steps
per consumed input character. -/
def jsonParse (s : List Char) : Option Json :=
  match parseValue (3 * s.length + 3) s with
  | some (j, rest) => if (skipWs rest).isEmpty then some j else none
  | none => none

/-- Last-occurrence field lookup: `JSON.parse` lets a later duplicate key
overwrite an earlier one, so property access sees the last binding. -/
def lookupLast (fields : JsonFields) (key : List Char) : Option Json :=
  match fields with
  | JsonFields.nil => none
  | JsonFields.cons k v rest =>
    match lookupLast rest key with
    | some r => some r
    | none => if k = key then some v else none

/-- JavaScript property access `x.key` on a parsed JSON value: a field of
an object, `undefined` (here `none`) on everything else. -/
def Json.getField (j : Json) (key : List Char) : Option Json :=
  match j with
  | Json.jobj fields => lookupLast fields key
  | _ => none

/-- JavaScript element access `x?.[0]` on a parsed JSON value, restricted
to arrays.  (Indexing a string yields a one-character string whose
subsequent `.delta` access is `undefined`, so the observable result of the
whole access chain is unchanged by omitting it.) -/
def Json.index0 (j : Json) : Option Json :=
  match j with
  | Json.jarr (JsonList.cons x _) => some x
  | _ => none

/-- A JSON number literal denotes zero exactly when its mantissa (the part
before any exponent marker) contains no nonzero digit. -/
def numLitIsZero (lit : List Char) : Bool :=
  (lit.takeWhile (fun c => !(c = 'e' || c = 'E'))).all
    (fun c => !('1' ≤ c && c ≤ '9'))

/-- JavaScript truthiness of a parsed JSON value: `null`, `false`, `0` and
the empty string are falsy; objects and arrays are always truthy. -/
def Json.truthy (j : Json) : Bool :=
  match j with
  | Json.jnull => false
  | Json.jbool b => b
  | Json.jnum lit => !numLitIsZero lit
  | Json.jstr s => !s.isEmpty
  | Json.jarr _ => true
  | Json.jobj _ => true

mutual

/-- JavaScript string coercion `String(x)` of a parsed JSON value, as used
by `htmlContent += content`.  A number is rendered as its source literal
(an approximation of JS number formatting, exact for integer literals). -/
def Json.toJsString : Json → List Char
  | Json.jnull => 'n' :: 'u' :: 'l' :: 'l' :: []
  | Json.jbool true => 't' :: 'r' :: 'u' :: 'e' :: []
  | Json.jbool false => 'f' :: 'a' :: 'l' :: 's' :: 'e' :: []
  | Json.jnum lit => lit
  | Json.jstr s => s
  | Json.jarr elems => jsonArrJoin elems
  | Json.jobj _ => "[object Object]".toList

/-- `Array.prototype.toString`: elements joined with commas, `null`
rendered as the empty string. -/
def jsonArrJoin : JsonList → List Char
  | JsonList.nil => []
  | JsonList.cons x rest =>
    let s := match x with
      | Json.jnull => []
      | y => Json.toJsString y
    match rest with
    | JsonList.nil => s
    | JsonList.cons _ _ => s ++ ',' :: jsonArrJoin rest

end

/-- The optional-chained access `parsed.choices?.[0]?.delta?.content` of
the route handler, followed by the `if (content)` truthiness guard: the
text appended and enqueued for one parsed SSE payload, if any.  A thrown
`TypeError` (property access on `null`) is absorbed by the surrounding
`try` with nothing emitted, which coincides with `none` here. -/
def streamDeltaContent (parsed : Json) : Option (List Char) :=
  match parsed.getField ("choices".toList) with
  | none => none
  | some choices =>
    match choices.index0 with
    | none => none
    | some c0 =>
      match c0.getField ("delta".toList) with
      | none => none
      | some delta =>
        match delta.getField ("content".toList) with
        | none => none
        | some content =>
          if content.truthy then some content.toJsString else none

/-- `chunk.split('\n')` of the route handler: the empty string yields one
empty piece, and a trailing newline yields a trailing empty piece. -/
def splitOnNl : List Char → List (List Char)
  | [] => [[]]
  | c :: rest =>
    let r := splitOnNl rest
    if c = '\n' then [] :: r
    else
      match r with
      | h :: t => (c :: h) :: t
      | [] => [[c]]

/-- The literal line marker `data: ` tested by `line.startsWith`. -/
def dataTag : List Char := "data: ".toList

/-- The end-of-stream sentinel payload `[DONE]`. -/
def doneTag : List Char := "[DONE]".toList

/-- One iteration of the route handler's `for (const line of lines)` body:
the delta text enqueued for this line, if any.  Lines without the `data: `
marker, the `[DONE]` sentinel, unparseable payloads and payloads without a
truthy `choices[0].delta.content` all produce nothing; a `JSON.parse`
failure is swallowed by the inner `try`. -/
def processSseLine (line : List Char) : Option (List Char) :=
  if dataTag.isPrefixOf line then
    let data := line.drop 6
    if data = doneTag then none
    else
      match jsonParse data with
      | some parsed => streamDeltaContent parsed
      | none => none
  else none

/-- Deltas produced by one inbound chunk: the chunk is split on newlines
and every piece is processed immediately (the handler keeps no carry-over
of an incomplete trailing fragment). -/
def processSseChunk (chunk : List Char) : List (List Char) :=
  (splitOnNl chunk).filterMap processSseLine

/-- Deltas produced by a whole inbound chunk sequence, in arrival order. -/
def decodeChunks (chunks : List (List Char)) : List (List Char) :=
  (chunks.map processSseChunk).flatten

/-- Whitespace as matched by the regex class `\s` and by `trim` in
JavaScript (the ASCII cases plus the common Unicode ones). -/
def isJsWs (c : Char) : Bool :=
  c = ' ' || c = '\t' || c = '\n' || c = '\r' || c = '\x0b' || c = '\x0c' ||
  c.toNat = 160 || c.toNat = 65279 || c.toNat = 8232 || c.toNat = 8233

/-- `s.trim()`: whitespace removed from both ends. -/
def jsTrim (s : List Char) : List Char :=
  ((s.dropWhile isJsWs).reverse.dropWhile isJsWs).reverse

/-- The replacement `content.replace(/^```html\s*|```$/g, '')`: with the
`g` flag and no `m` flag this removes one leading marker (three backticks,
`html`, trailing whitespace) anchored at the start, and one trailing
three-backtick marker anchored at the end, the second never overlapping
the first. -/
def stripCodeBlockMarkers (s : List Char) : List Char :=
  let s1 :=
    if ("```html".toList).isPrefixOf s then (s.drop 7).dropWhile isJsWs else s
  if ("```".toList).isSuffixOf s1 then s1.take (s1.length - 3) else s1

/-- `extractContentFromStreamResponse` of the route module: `null` on an
empty accumulator, otherwise the accumulator with code-block markers
stripped and trimmed, or `null` if that leaves nothing. -/
def extractContentFromStreamResponse (content : List Char) : Option (List Char) :=
  if content.isEmpty then none
  else
    let htmlContent := jsTrim (stripCodeBlockMarkers content)
    if htmlContent.isEmpty then none else some htmlContent

/-- Everything the relay loop enqueues to the caller's byte stream for a
given inbound chunk sequence: each extracted delta as it is decoded, then,
at end of stream, `finalHtml.slice(htmlContent.length)` if it is a
non-empty string. -/
def relayEmissions (chunks : List (List Char)) : List (List Char) :=
  let deltas := decodeChunks chunks
  let htmlContent := deltas.flatten
  let remaining :=
    match extractContentFromStreamResponse htmlContent with
    | some finalHtml => finalHtml.drop htmlContent.length
    | none => []
  if remaining.isEmpty then deltas else deltas ++ [remaining]

/-- The decimal digit character for `d < 10`. -/
def digitChar (d : Nat) : Char := Char.ofNat (48 + d)

/-- Decimal digits of `n`, most significant first, with explicit fuel. -/
def natDigitsAux : Nat → Nat → List Char
  | 0, _ => []
  | Nat.succ fuel, n =>
    if n < 10 then [digitChar n]
    else natDigitsAux fuel (n / 10) ++ [digitChar (n % 10)]

/-- Decimal rendering of a natural number, as interpolated by `HTTP ${n}`. -/
def natToChars (n : Nat) : List Char := natDigitsAux (n + 1) n

/-- The custom error class `OpenAIError` of `openai.ts`: message, optional
status code, optional error type tag, retryability flag. -/
structure OpenAIError where
  message : List Char
  statusCode : Option Nat
  errorType : Option (List Char)
  retryable : Bool

/-- The part of a `fetch` `Response` the classifier reads: status, status
text and the raw body handed to `response.json()`. -/
structure HttpResponse where
  status : Nat
  statusText : List Char
  body : List Char

/-- `response.ok`: status in the inclusive range 200–299. -/
def responseOk (r : HttpResponse) : Bool :=
  decide (200 ≤ r.status) && decide (r.status ≤ 299)

/-- The default classifier message `HTTP ${status}: ${statusText}`. -/
def httpStatusMessage (resp : HttpResponse) : List Char :=
  "HTTP ".toList ++ natToChars resp.status ++ ": ".toList ++ resp.statusText

/-- `parseApiError` of `openai.ts`: starts from the default message, type
`unknown` and `retryable = false`; if `response.json()` succeeds and its
`error` field is truthy, the message and type are taken from that field
(with `??` fallbacks) and retryability is decided from the status; a parse
failure is caught and leaves the defaults in place.  Total, mirroring the
source function, which never throws. -/
def parseApiError (resp : HttpResponse) : OpenAIError :=
  let base : OpenAIError :=
    ⟨httpStatusMessage resp, some resp.status, some ("unknown".toList), false⟩
  match jsonParse resp.body with
  | none => base
  | some errorData =>
    match errorData.getField ("error".toList) with
    | none => base
    | some err =>
      if err.truthy then
        { message :=
            match err.getField ("message".toList) with
            | some Json.jnull => base.message
            | some v => v.toJsString
            | none => base.message
          statusCode := some resp.status
          errorType := some
            (match err.getField ("type".toList) with
             | some Json.jnull => "api_error".toList
             | some v => v.toJsString
             | none => "api_error".toList)
          retryable :=
            decide (500 ≤ resp.status) || decide (resp.status = 429) ||
              decide (resp.status = 408) }
      else base

/-- Whether the body parses as JSON with a truthy `error` field — the
condition under which `parseApiError` computes retryability at all. -/
def errorFieldTruthy (body : List Char) : Bool :=
  match jsonParse body with
  | some d =>
    match d.getField ("error".toList) with
    | some e => e.truthy
    | none => false
  | none => false

/-- Eventual settlement of the raced `fetch(url, options)` promise. -/
inductive FetchOutcome where
  | resolved (resp : HttpResponse) : FetchOutcome
  | rejected (msg : List Char) : FetchOutcome

/-- What a `fetchWithTimeout` call can reject with: the module's own
`OpenAIError`, or a lower-level exception passed through unmodified. -/
inductive FetchFailure where
  | openAIError (e : OpenAIError) : FetchFailure
  | jsError (msg : List Char) : FetchFailure

/-- The rejection value `new OpenAIError('请求超时', 408, 'timeout', true)`
installed on the timeout timer. -/
def timeoutError : OpenAIError :=
  ⟨"请求超时".toList, some 408, some ("timeout".toList), true⟩

/-- `fetchWithTimeout` of `openai.ts`: the promise settles once, with
whichever of the timer and the request wins the race (`timerFirst`).  When
the timer fires first the promise is already rejected with the timeout
error, so the in-flight request's eventual outcome is discarded by the
no-op late `resolve`/`reject` calls. -/
def fetchWithTimeout (timerFirst : Bool) (outcome : FetchOutcome) :
    Except FetchFailure HttpResponse :=
  if timerFirst then Except.error (FetchFailure.openAIError timeoutError)
  else
    match outcome with
    | FetchOutcome.resolved r => Except.ok r
    | FetchOutcome.rejected m => Except.error (FetchFailure.jsError m)

/-- One transport attempt as the retry coordinator observes it: which side
of the `fetchWithTimeout` race won, and how the request itself settled. -/
structure Attempt where
  timerFirst : Bool
  outcome : FetchOutcome

/-- `MAX_RETRIES` of `openai.ts`. -/
def MAX_RETRIES : Nat := 3

/-- The `OpenAIError` built for a non-`OpenAIError` exception:
`网络请求失败`, status code `0`, type `network_error`, retryable exactly
when retry budget remains. -/
def networkError (m : List Char) (retries : Nat) : OpenAIError :=
  ⟨"网络请求失败: ".toList ++ m, some 0, some ("network_error".toList),
    decide (0 < retries)⟩

/-- `fetchWithRetry` of `openai.ts`, instrumented with the number of
transport attempts performed (the second component).  `env i` is the
outcome of the `i`-th transport attempt; `retries` is the remaining retry
budget.  A recursive call from the `try` block is returned without `await`,
so its rejection bypasses this invocation's own `catch`. -/
def fetchWithRetry (env : Nat → Attempt) :
    Nat → Nat → Except OpenAIError HttpResponse × Nat
  | 0, idx =>
    match fetchWithTimeout (env idx).timerFirst (env idx).outcome with
    | Except.ok resp =>
      if responseOk resp then (Except.ok resp, 1)
      else (Except.error (parseApiError resp), 1)
    | Except.error (FetchFailure.openAIError e) => (Except.error e, 1)
    | Except.error (FetchFailure.jsError m) => (Except.error (networkError m 0), 1)
  | Nat.succ retries, idx =>
    match fetchWithTimeout (env idx).timerFirst (env idx).outcome with
    | Except.ok resp =>
      if responseOk resp then (Except.ok resp, 1)
      else
        let err := parseApiError resp
        if err.retryable then
          let p := fetchWithRetry env retries (idx + 1)
          (p.1, p.2 + 1)
        else (Except.error err, 1)
    | Except.error (FetchFailure.openAIError e) =>
      if e.retryable then
        let p := fetchWithRetry env retries (idx + 1)
        (p.1, p.2 + 1)
      else (Except.error e, 1)
    | Except.error (FetchFailure.jsError _) =>
      let p := fetchWithRetry env retries (idx + 1)
      (p.1, p.2 + 1)

/-- `ADSENSE_CLIENT_ID` default of `openai.ts`. -/
def adSenseClientId : List Char := "ca-pub-XXXXXXXXXXXXXXXX".toList

/-- `generateAdSenseCode` of `openai.ts`. -/
def generateAdSenseCode : List Char :=
  "<script async src=\"https://pagead2.googlesyndication.com/pagead/js/adsbygoogle.js?client=".toList ++
    adSenseClientId ++ "\" crossorigin=\"anonymous\"></script>".toList

/-- `generateErrorHtml` of `openai.ts` (the fallback document generator):
a fixed-structure HTML document embedding the message.  The `statusCode`
parameter is declared by the source but never interpolated into the
template. -/
def generateErrorHtml (errorMessage : List Char) (statusCode : Nat) : List Char :=
  "<!DOCTYPE html>\n<html lang=\"zh-CN\">\n<head>\n    <meta charset=\"utf-8\">\n    <meta name=\"viewport\" content=\"width=device-width, initial-scale=1.0\">\n    <title>服务暂时不可用</title>\n    ".toList ++
  generateAdSenseCode ++
  "\n</head>\n<body style=\"font-family: Arial, sans-serif; max-width: 800px; margin: 0 auto; padding: 20px; background-color: #f5f5f5;\">\n    <div style=\"background-color: white; padding: 30px; border-radius: 8px; box-shadow: 0 2px 10px rgba(0,0,0,0.1);\">\n        <h1 style=\"color: #e74c3c; margin-bottom: 20px;\">🚧 服务暂时不可用</h1>\n        <p style=\"color: #666; line-height: 1.6; margin-bottom: 20px;\">\n            抱歉，我们的 AI 内容生成服务目前遇到了一些技术问题。请稍后再试。\n        </p>\n        <div style=\"background-color: #f8f9fa; padding: 15px; border-radius: 4px; margin-bottom: 20px;\">\n            <strong style=\"color: #495057;\">错误信息:</strong>\n            <code style=\"color: #e83e8c; background-color: #f1f3f4; padding: 2px 4px; border-radius: 3px;\">".toList ++
  errorMessage ++
  "</code>\n        </div>\n        <div style=\"margin-top: 30px;\">\n            <a href=\"/\" style=\"display: inline-block; background-color: #007bff; color: white; padding: 10px 20px; text-decoration: none; border-radius: 4px; margin-right: 10px;\">返回首页</a>\n            <button onclick=\"location.reload()\" style=\"background-color: #28a745; color: white; padding: 10px 20px; border: none; border-radius: 4px; cursor: pointer;\">重新加载</button>\n        </div>\n    </div>\n</body>\n</html>".toList

/-- `validateApiKey` of `openai.ts`: the module-level key must be a truthy
(non-empty) string; an absent environment variable is the empty case. -/
def validateApiKey (apiKey : List Char) : Bool := !apiKey.isEmpty

/-- What `callOpenAiApiStream` returns to its caller: either the upstream
streaming response, or a self-contained fallback HTML document. -/
inductive CallResult where
  | upstream (resp : HttpResponse) : CallResult
  | errorPage (html : List Char) (status : Nat) : CallResult

/-- `callOpenAiApiStream` of `openai.ts`, instrumented with the number of
transport attempts performed.  A missing key short-circuits with a 500
fallback document before any transport is invoked; a caught `OpenAIError`
builds the fallback with `error.statusCode || 500`, so the falsy status
code `0` is replaced by 500. -/
def callOpenAiApiStream (apiKey : List Char) (env : Nat → Attempt) :
    CallResult × Nat :=
  if !(validateApiKey apiKey) then
    (CallResult.errorPage (generateErrorHtml ("API 密钥未配置".toList) 500) 500, 0)
  else
    match fetchWithRetry env MAX_RETRIES 0 with
    | (Except.ok resp, n) => (CallResult.upstream resp, n)
    | (Except.error e, n) =>
      let statusCode :=
        match e.statusCode with
        | some s => if s = 0 then 500 else s
        | none => 500
      (CallResult.errorPage (generateErrorHtml e.message statusCode) statusCode, n)

/-- How the coordinator classifies one attempt's outcome when `remaining`
retries are left: a timeout rejection is retryable; a non-ok response is
retryable per `parseApiError`; a lower-level exception is classified
retryable exactly when budget remains.  An ok response is never
"retryable" — the coordinator returns it at once. -/
def retriedOutcomeRetryable (a : Attempt) (remaining : Nat) : Bool :=
  if a.timerFirst then timeoutError.retryable
  else
    match a.outcome with
    | FetchOutcome.resolved r => !responseOk r && (parseApiError r).retryable
    | FetchOutcome.rejected _ => decide (0 < remaining)

/-- Dropping leading whitespace, reversing twice, never lengthens a list. -/
lemma length_jsTrim_le (s : List Char) : (jsTrim s).length ≤ s.length := by
  unfold jsTrim
  calc ((s.dropWhile isJsWs).reverse.dropWhile isJsWs).reverse.length
      = ((s.dropWhile isJsWs).reverse.dropWhile isJsWs).length := List.length_reverse _
    _ ≤ (s.dropWhile isJsWs).reverse.length := (List.dropWhile_sublist _).length_le
    _ = (s.dropWhile isJsWs).length := List.length_reverse _
    _ ≤ s.length := (List.dropWhile_sublist _).length_le

/-- The marker-stripping replacement only deletes characters. -/
lemma length_stripCodeBlockMarkers_le (s : List Char) :
    (stripCodeBlockMarkers s).length ≤ s.length := by
  have key : ∀ t : List Char, t.length ≤ s.length →
      (if ("```".toList).isSuffixOf t then t.take (t.length - 3) else t).length ≤
        s.length := by
    intro t ht
    split
    · exact le_trans (le_trans (List.length_take_le _ _) (Nat.sub_le _ _)) ht
    · exact ht
  simp only [stripCodeBlockMarkers]
  split
  · exact key _ (le_trans ((List.dropWhile_sublist _).length_le)
      (by rw [List.length_drop]; omega))
  · exact key s le_rfl

/-- End-of-stream post-processing never returns more characters than the
accumulated content it was given. -/
lemma extract_length_le (content f : List Char)
    (h : extractContentFromStreamResponse content = some f) :
    f.length ≤ content.length := by
  simp only [extractContentFromStreamResponse] at h
  split at h
  · exact absurd h (by simp)
  · split at h
    · exact absurd h (by simp)
    · cases h
      exact le_trans (length_jsTrim_le _) (length_stripCodeBlockMarkers_le _)

/-- Claim C9: every extracted delta is written to the caller's byte stream
exactly once, in upstream order: the relay's emissions are exactly the
decoded delta sequence (chunk by chunk, in order), and the end-of-stream
post-processing step emits nothing, because the cleaned final content is
never longer than the already-forwarded accumulator, so its
`slice(htmlContent.length)` is always empty. -/
theorem relay_emits_each_delta_once (chunks : List (List Char)) :
    relayEmissions chunks = decodeChunks chunks ∧
    ∀ c cs, decodeChunks (c :: cs) = processSseChunk c ++ decodeChunks cs := by
  refine ⟨?_, fun c cs => by simp [decodeChunks]⟩
  simp only [relayEmissions]
  cases hx : extractContentFromStreamResponse (decodeChunks chunks).flatten with
  | none => simp
  | some f =>
    have hdrop : f.drop (decodeChunks chunks).flatten.length = [] :=
      List.drop_eq_nil_of_le (extract_length_le _ _ hx)
    simp only [hx]
    rw [hdrop]
    simp

/-- Claim C1 (code behaviour at the spec's split-line input): the handler
keeps no carry-over buffer, so a `data:` line split across two chunks
yields no delta at all — the first fragment is parsed (and discarded) on
its own and the continuation lacks the `data: ` marker — while the same
bytes in a single chunk yield the delta `B` once.  This contradicts the
stated retention of incomplete trailing fragments. -/
theorem sse_chunk_split_loses_delta :
    decodeChunks ["data: \x7b\"cho".toList,
        "ices\":[\x7b\"delta\":\x7b\"content\":\"B\"\x7d\x7d]\x7d\n".toList] = [] ∧
    decodeChunks [("data: \x7b\"cho".toList ++
        "ices\":[\x7b\"delta\":\x7b\"content\":\"B\"\x7d\x7d]\x7d\n".toList)] =
      ["B".toList] :=
  ⟨rfl, rfl⟩

/-- Claim C7: feeding the delta line for `A` and then the `[DONE]` line
yields exactly the single delta `A`; the `[DONE]` payload is filtered by
the sentinel test before parsing and produces no delta. -/
theorem sse_done_sentinel_single_delta :
    decodeChunks
        ["data: \x7b\"choices\":[\x7b\"delta\":\x7b\"content\":\"A\"\x7d\x7d]\x7d\n".toList,
         "data: [DONE]\n".toList] = ["A".toList] ∧
    processSseChunk ("data: [DONE]\n".toList) = [] ∧
    processSseLine ("data: [DONE]".toList) = none :=
  ⟨rfl, rfl, rfl⟩

/-- Claim C8: a `data:` line whose payload is not valid JSON produces no
delta (the parse failure is swallowed, and the total model never throws),
and surrounding lines of the stream are decoded exactly as they would be
without it. -/
theorem sse_malformed_payload_skipped (payload : List Char)
    (h : jsonParse payload = none) (pre post : List (List Char)) :
    processSseLine (dataTag ++ payload) = none ∧
    (pre ++ [dataTag ++ payload] ++ post).filterMap processSseLine =
      pre.filterMap processSseLine ++ post.filterMap processSseLine := by
  have hline : processSseLine (dataTag ++ payload) = none := by
    have hpre : dataTag.isPrefixOf (dataTag ++ payload) = true := by
      simp [ List.isPrefixOf_iff_prefix]
    have hdrop : (dataTag ++ payload).drop 6 = payload := List.drop_left dataTag payload
    simp only [processSseLine, hpre, if_true, hdrop]
    split
    · rfl
    · rw [h]
  refine ⟨hline, ?_⟩
  simp [List.filterMap_append, hline]

/-- Witness for C8 at the spec's own example payload `not-json`. -/
theorem sse_malformed_payload_skipped_witness :
    processSseLine (dataTag ++ "not-json".toList) = none :=
  (sse_malformed_payload_skipped ("not-json".toList) rfl [] []).1

/-- Claim C4: the classifier is a total function (the source's single
fallible step, `response.json()`, sits inside a `try` whose `catch` keeps
the defaults), it always records the response's status code, and whenever
the body fails to parse as JSON the failure carries the default message
`HTTP <status>: <statusText>` and the type `unknown`. -/
theorem parseApiError_total_defaults (resp : HttpResponse) :
    (parseApiError resp).statusCode = some resp.status ∧
    (jsonParse resp.body = none →
      (parseApiError resp).message = httpStatusMessage resp ∧
      (parseApiError resp).errorType = some ("unknown".toList)) := by
  constructor
  · simp only [parseApiError]
    split
    · rfl
    · split
      · rfl
      · split
        · rfl
        · rfl
  · intro hn
    simp [parseApiError, hn]

/-- Witness for C4: a 502 whose body is an HTML error page, not JSON. -/
theorem parseApiError_total_defaults_witness :
    (parseApiError ⟨502, "Bad Gateway".toList, "<html>upstream</html>".toList⟩).message =
        httpStatusMessage ⟨502, "Bad Gateway".toList, "<html>upstream</html>".toList⟩ ∧
    (parseApiError ⟨502, "Bad Gateway".toList, "<html>upstream</html>".toList⟩).errorType =
        some ("unknown".toList) :=
  (parseApiError_total_defaults ⟨502, "Bad Gateway".toList, "<html>upstream</html>".toList⟩).2 rfl

/-- Claim C5: with an absent (empty) API key, `callOpenAiApiStream`
short-circuits on `validateApiKey` and returns the fallback HTML document
with status 500 having performed zero transport attempts, for every
possible transport behaviour. -/
theorem callOpenAiApiStream_missing_key (env : Nat → Attempt) :
    callOpenAiApiStream [] env =
      (CallResult.errorPage (generateErrorHtml ("API 密钥未配置".toList) 500) 500, 0) :=
  rfl

/-- Claim C6: whenever the timeout timer fires before the outbound request
settles, `fetchWithTimeout` rejects with the timeout `OpenAIError`
(`retryable = true`) regardless of how the in-flight request would
eventually settle — the promise is already settled, so the request's
resolution is ignored. -/
theorem fetchWithTimeout_timer_first (o : FetchOutcome) :
    fetchWithTimeout true o = Except.error (FetchFailure.openAIError timeoutError) ∧
    timeoutError.retryable = true :=
  ⟨rfl, rfl⟩

/-- Counterexample to claim C2 as stated: a 500 response whose body is not
JSON.  Its status satisfies `status >= 500`, and it is a non-success
response, yet the classifier leaves `retryable = false`, because the
source computes retryability only inside the branch taken when the error
body parsed and had a truthy `error` field. -/
theorem parseApiError_retryable_counterexample :
    responseOk ⟨500, "Internal Server Error".toList, "oops not json".toList⟩ = false ∧
    (parseApiError ⟨500, "Internal Server Error".toList, "oops not json".toList⟩).retryable
      = false :=
  ⟨rfl, rfl⟩

/-- Claim C2 as amended: the classifier sets `retryable = true` exactly
when the error body parses as JSON with a truthy `error` field AND the
status is `>= 500` or `429` or `408`; otherwise `retryable` stays `false`.
A timeout failure is always retryable. -/
theorem parseApiError_retryable_conditional (resp : HttpResponse) :
    ((parseApiError resp).retryable = true ↔
      (errorFieldTruthy resp.body = true ∧
        (500 ≤ resp.status ∨ resp.status = 429 ∨ resp.status = 408))) ∧
    timeoutError.retryable = true := by
  refine ⟨?_, rfl⟩
  simp only [parseApiError, errorFieldTruthy]
  cases hj : jsonParse resp.body with
  | none => simp
  | some d =>
    cases hf : d.getField ('e' :: 'r' :: 'r' :: 'o' :: 'r' :: []) with
    | none => simp [hf]
    | some e =>
      cases ht : e.truthy with
      | false => simp [hf, ht]
      | true => simp [hf, ht, or_assoc]

/-- With no retry budget left, exactly one transport attempt is made. -/
lemma fetchWithRetry_zero_count (env : Nat → Attempt) (idx : Nat) :
    (fetchWithRetry env 0 idx).2 = 1 := by
  rcases hA : env idx with ⟨tf, oc⟩
  cases tf
  · cases oc with
    | resolved r =>
      by_cases hok : responseOk r = true <;>
        simp [fetchWithRetry, hA, fetchWithTimeout, hok]
    | rejected m => simp [fetchWithRetry, hA, fetchWithTimeout]
  · simp [fetchWithRetry, hA, fetchWithTimeout]

/-- An attempt that resolves to an ok response is returned at once. -/
lemma fetchWithRetry_ok (env : Nat → Attempt) (retries idx : Nat) (r : HttpResponse)
    (hA : env idx = ⟨false, FetchOutcome.resolved r⟩) (hok : responseOk r = true) :
    fetchWithRetry env retries idx = (Except.ok r, 1) := by
  cases retries <;> simp [fetchWithRetry, hA, fetchWithTimeout, hok]

/-- With budget left, an attempt classified retryable is followed by a
recursive call on the remaining budget, adding one to the attempt count. -/
lemma fetchWithRetry_succ_retry (env : Nat → Attempt) (retries idx : Nat)
    (hR : retriedOutcomeRetryable (env idx) (retries + 1) = true) :
    fetchWithRetry env (retries + 1) idx =
      ((fetchWithRetry env retries (idx + 1)).1,
       (fetchWithRetry env retries (idx + 1)).2 + 1) := by
  rcases hA : env idx with ⟨tf, oc⟩
  rw [hA] at hR
  cases tf
  · cases oc with
    | resolved r =>
      have h' : responseOk r = false ∧ (parseApiError r).retryable = true := by
        simpa [retriedOutcomeRetryable] using hR
      simp [fetchWithRetry, hA, fetchWithTimeout, h'.1, h'.2]
    | rejected m => simp [fetchWithRetry, hA, fetchWithTimeout]
  · simp [fetchWithRetry, hA, fetchWithTimeout, timeoutError]

/-- With budget left, an attempt classified non-retryable terminates the
coordinator with exactly this one attempt. -/
lemma fetchWithRetry_succ_stop (env : Nat → Attempt) (retries idx : Nat)
    (hR : retriedOutcomeRetryable (env idx) (retries + 1) = false) :
    (fetchWithRetry env (retries + 1) idx).2 = 1 := by
  rcases hA : env idx with ⟨tf, oc⟩
  rw [hA] at hR
  cases tf
  · cases oc with
    | resolved r =>
      by_cases hok : responseOk r = true
      · simp [fetchWithRetry, hA, fetchWithTimeout, hok]
      · have hok' : responseOk r = false := by
          revert hok; cases responseOk r <;> simp
        have hretry : (parseApiError r).retryable = false := by
          revert hR; simp [retriedOutcomeRetryable, hok']
        simp [fetchWithRetry, hA, fetchWithTimeout, hok', hretry]
    | rejected m =>
      exact absurd hR (by simp [retriedOutcomeRetryable])
  · exact absurd hR (by simp [retriedOutcomeRetryable, timeoutError])

/-- Attempt-count bounds and the retryability of every non-final attempt,
for an arbitrary budget and starting index. -/
lemma fetchWithRetry_spec (env : Nat → Attempt) :
    ∀ retries idx : Nat,
      1 ≤ (fetchWithRetry env retries idx).2 ∧
      (fetchWithRetry env retries idx).2 ≤ retries + 1 ∧
      (∀ j, j + 1 < (fetchWithRetry env retries idx).2 →
        retriedOutcomeRetryable (env (idx + j)) (retries - j) = true) := by
  intro retries
  induction retries with
  | zero =>
    intro idx
    refine ⟨by rw [fetchWithRetry_zero_count], by rw [fetchWithRetry_zero_count], ?_⟩
    intro j hj
    rw [fetchWithRetry_zero_count] at hj
    omega
  | succ retries ih =>
    intro idx
    cases hR : retriedOutcomeRetryable (env idx) (retries + 1) with
    | false =>
      have h1 := fetchWithRetry_succ_stop env retries idx hR
      refine ⟨by omega, by omega, ?_⟩
      intro j hj
      rw [h1] at hj
      omega
    | true =>
      have heq := fetchWithRetry_succ_retry env retries idx hR
      obtain ⟨ih1, ih2, ih3⟩ := ih (idx + 1)
      refine ⟨by rw [heq]; omega, by rw [heq]; omega, ?_⟩
      intro j hj
      rw [heq] at hj
      cases j with
      | zero => simpa using hR
      | succ j' =>
        have h' : j' + 1 < (fetchWithRetry env retries (idx + 1)).2 := by
          simpa using Nat.lt_of_succ_lt_succ hj
        have hmain := ih3 j' h'
        have hidx : idx + (j' + 1) = (idx + 1) + j' := by omega
        have hsub : retries + 1 - (j' + 1) = retries - j' := by omega
        rw [hidx, hsub]
        exact hmain

/-- Claim C3: with the default budget `MAX_RETRIES = 3`, the coordinator
performs at most `3 + 1 = 4` transport attempts in total; a first attempt
that resolves to an HTTP-ok response is returned immediately as the only
attempt; and every attempt that was followed by another one was a failure
classified as retryable (so no non-retryable failure is ever retried, and
no success is ever followed by another attempt). -/
theorem fetchWithRetry_bounded (env : Nat → Attempt) :
    (fetchWithRetry env MAX_RETRIES 0).2 ≤ 4 ∧
    (∀ r, env 0 = ⟨false, FetchOutcome.resolved r⟩ → responseOk r = true →
      fetchWithRetry env MAX_RETRIES 0 = (Except.ok r, 1)) ∧
    (∀ i, i + 1 < (fetchWithRetry env MAX_RETRIES 0).2 →
      retriedOutcomeRetryable (env i) (MAX_RETRIES - i) = true) := by
  obtain ⟨h1, h2, h3⟩ := fetchWithRetry_spec env MAX_RETRIES 0
  refine ⟨h2, fun r hA hok => fetchWithRetry_ok env MAX_RETRIES 0 r hA hok,
    fun i hi => ?_⟩
  simpa using h3 i hi

/-- Witness for C3: an immediately ok transport gives one attempt. -/
theorem fetchWithRetry_bounded_witness :
    fetchWithRetry (fun _ => ⟨false, FetchOutcome.resolved ⟨200, [], []⟩⟩)
        MAX_RETRIES 0 = (Except.ok ⟨200, [], []⟩, 1) :=
  (fetchWithRetry_bounded _).2.1 ⟨200, [], []⟩ rfl rfl

/-- When every transport attempt rejects with a lower-level network error,
the coordinator consumes the whole budget and surfaces the network failure
classified at the final attempt (budget zero, hence non-retryable). -/
lemma fetchWithRetry_all_rejected (env : Nat → Attempt) (m : Nat → List Char)
    (henv : ∀ i, env i = ⟨false, FetchOutcome.rejected (m i)⟩) :
    ∀ retries idx, fetchWithRetry env retries idx =
      (Except.error (networkError (m (idx + retries)) 0), retries + 1) := by
  intro retries
  induction retries with
  | zero =>
    intro idx
    simp [fetchWithRetry, henv idx, fetchWithTimeout]
  | succ retries ih =>
    intro idx
    have harith : idx + 1 + retries = idx + (retries + 1) := by omega
    simp [fetchWithRetry, henv idx, fetchWithTimeout, ih (idx + 1), harith]

/-- Claim C10: a network-level failure that exhausts the retry budget is
classified with `statusCode = 0`, yet the fallback document response built
by `callOpenAiApiStream` carries HTTP status 500, because the falsy status
code `0` is replaced by 500 (`error.statusCode || 500`); the caller never
observes an HTTP status of 0. -/
theorem networkFailure_surfaces_as_500 (apiKey : List Char) (m : Nat → List Char)
    (env : Nat → Attempt)
    (hkey : validateApiKey apiKey = true)
    (henv : ∀ i, env i = ⟨false, FetchOutcome.rejected (m i)⟩) :
    fetchWithRetry env MAX_RETRIES 0 =
      (Except.error (networkError (m 3) 0), 4) ∧
    (networkError (m 3) 0).statusCode = some 0 ∧
    callOpenAiApiStream apiKey env =
      (CallResult.errorPage (generateErrorHtml (networkError (m 3) 0).message 500) 500,
        4) := by
  have h0 := fetchWithRetry_all_rejected env m henv MAX_RETRIES 0
  have h0' : fetchWithRetry env MAX_RETRIES 0 =
      (Except.error (networkError (m 3) 0), 4) := by
    simpa [MAX_RETRIES] using h0
  refine ⟨h0', rfl, ?_⟩
  simp [callOpenAiApiStream, hkey, h0', networkError]

/-- Witness for C10 at a concrete connection-refused transport. -/
theorem networkFailure_surfaces_as_500_witness :
    callOpenAiApiStream ("k".toList)
        (fun _ => ⟨false, FetchOutcome.rejected ("ECONNREFUSED".toList)⟩) =
      (CallResult.errorPage
        (generateErrorHtml (networkError ("ECONNREFUSED".toList) 0).message 500) 500,
        4) :=
  (networkFailure_surfaces_as_500 ("k".toList) (fun _ => "ECONNREFUSED".toList)
    (fun _ => ⟨false, FetchOutcome.rejected ("ECONNREFUSED".toList)⟩) rfl
    (fun _ => rfl)).2.2
